import Mathlib

/-!
Verification of the candidate scoring engine of the linked_in-Automate
repository.  The Python sources (src/candidate_scorer.py, src/config.py,
src/utils.py) are shallowly embedded: JSON-compatible Python values become
the inductive `JVal`, Python truthiness / `dict.get` / iteration / string
methods become explicit total functions, and code paths that raise a
Python exception return `Except.error`.  Numeric scores are `Nat`
(the source only ever produces small integer category scores) and the
weighted total is `Rat`.
-/

namespace LinkedinAutomate

/-- Python `str.lower` on a single character (ASCII case mapping, which is
what all reference-table strings in the source use). -/
def lowChar (c : Char) : Char :=
  if c.toNat ≥ 65 && c.toNat ≤ 90 then Char.ofNat (c.toNat + 32) else c

/-- Python `str.lower` (ASCII). -/
def lowS (s : String) : String := ⟨s.data.map lowChar⟩

/-- Boolean list-prefix test on characters. -/
def prefL : List Char → List Char → Bool
  | [], _ => true
  | _ :: _, [] => false
  | a :: as, b :: bs => a == b && prefL as bs

/-- Boolean contiguous-sublist test on characters; `subL n h` is Python
`n in h` for strings. -/
def subL : List Char → List Char → Bool
  | n, [] => n.isEmpty
  | n, c :: t => prefL n (c :: t) || subL n t

/-- Python substring containment `needle in hay`. -/
def pySub (needle hay : String) : Bool := subL needle.data hay.data

/-- Strip leading and trailing whitespace from a character list. -/
def trimL (l : List Char) : List Char :=
  ((l.dropWhile Char.isWhitespace).reverse.dropWhile Char.isWhitespace).reverse

/-- Python `str.strip()`. -/
def pyStrip (s : String) : String := ⟨trimL s.data⟩

/-- Fuel-driven splitting on a (nonempty) separator, as Python
`str.split(sep)`: leftmost nonoverlapping occurrences. -/
def splitSepFuel (sep : List Char) : Nat → List Char → List Char → List (List Char)
  | 0, rest, acc => [acc.reverse ++ rest]
  | fuel + 1, l, acc =>
    match l with
    | [] => [acc.reverse]
    | c :: t =>
      if prefL sep (c :: t) then
        acc.reverse :: splitSepFuel sep fuel (List.drop sep.length (c :: t)) []
      else
        splitSepFuel sep fuel t (c :: acc)

/-- Python `s.split(sep)` for a nonempty separator. -/
def pySplitSep (sep s : String) : List String :=
  (splitSepFuel sep.data (s.data.length + 1) s.data []).map (fun l => ⟨l⟩)

/-- Helper for whitespace splitting. -/
def splitWSAux : List Char → List Char → List (List Char)
  | [], acc => if acc.isEmpty then [] else [acc.reverse]
  | c :: t, acc =>
    if c.isWhitespace then
      if acc.isEmpty then splitWSAux t [] else acc.reverse :: splitWSAux t []
    else splitWSAux t (c :: acc)

/-- Python argumentless `str.split()`: split on whitespace runs, dropping
empty fields. -/
def pySplitWS (s : String) : List String := (splitWSAux s.data []).map (fun l => ⟨l⟩)

/-- Parse a nonempty all-digit character list as a natural number. -/
def natDigitsAux : List Char → Nat → Option Nat
  | [], acc => some acc
  | c :: t, acc => if c.isDigit then natDigitsAux t (acc * 10 + (c.toNat - 48)) else none

/-- Digits-only parse; `none` on the empty list or any non-digit. -/
def natDigits : List Char → Option Nat
  | [] => none
  | l => natDigitsAux l 0

/-- Python `int(s)` on a string: optional sign after stripping whitespace,
`none` models the `ValueError`. -/
def pyInt (s : String) : Option Int :=
  match trimL s.data with
  | '-' :: rest => (natDigits rest).map (fun n => -(n : Int))
  | '+' :: rest => (natDigits rest).map (fun n => (n : Int))
  | rest => (natDigits rest).map (fun n => (n : Int))

/-- JSON-compatible Python values: the input shape `score_candidate` is fed
(strings, numbers, booleans, None, lists, dicts as association lists). -/
inductive JVal where
  | str : String → JVal
  | num : Rat → JVal
  | bool : Bool → JVal
  | null : JVal
  | arr : List JVal → JVal
  | obj : List (String × JVal) → JVal

/-- Python truthiness of a value. -/
def truthy : JVal → Bool
  | .str s => !s.data.isEmpty
  | .num q => q != 0
  | .bool b => b
  | .null => false
  | .arr l => !l.isEmpty
  | .obj l => !l.isEmpty

/-- Dictionary lookup (first matching key). -/
def lookupJ : List (String × JVal) → String → Option JVal
  | [], _ => none
  | (k, v) :: t, key => if k == key then some v else lookupJ t key

/-- Python `dict.get(key, dflt)`. -/
def getJ (o : List (String × JVal)) (key : String) (dflt : JVal) : JVal :=
  match lookupJ o key with
  | some v => v
  | none => dflt

/-- Python `key in dict`. -/
def hasKeyJ (o : List (String × JVal)) (key : String) : Bool := (lookupJ o key).isSome

/-- Python `a or b`: the first operand when truthy, else the second. -/
def pyOr (a b : JVal) : JVal := if truthy a then a else b

/-- Python iteration `for x in v`: lists yield elements, strings yield
one-character strings, dicts yield their keys; other values raise. -/
def pyIter : JVal → Except String (List JVal)
  | .arr l => .ok l
  | .str s => .ok (s.data.map (fun c => .str ⟨[c]⟩))
  | .obj l => .ok (l.map (fun kv => .str kv.1))
  | _ => .error "TypeError: object is not iterable"

/-- Python `len(v)` for sized values; other values raise. -/
def pyLen : JVal → Except String Nat
  | .arr l => .ok l.length
  | .str s => .ok s.data.length
  | .obj l => .ok l.length
  | _ => .error "TypeError: object has no len"

/-- Python `v.lower()`: defined on strings only, anything else raises
`AttributeError`. -/
def pyLowerV : JVal → Except String String
  | .str s => .ok (lowS s)
  | _ => .error "AttributeError: lower"

/-- The fallback pattern used by every category scorer
(src/candidate_scorer.py, e.g. lines 61-63): take the top-level key and,
when that is falsy and `raw_data` is a dict, the key inside `raw_data`. -/
def resolveField (cand : List (String × JVal)) (key : String) (dflt : JVal) : JVal :=
  let x := getJ cand key dflt
  if truthy x then x
  else
    match getJ cand "raw_data" .null with
    | .obj raw => getJ raw key dflt
    | _ => x

/-- TOP_UNIVERSITIES from src/config.py. -/
def TOP_UNIVERSITIES : List String :=
  ["MIT", "Stanford", "Carnegie Mellon", "UC Berkeley", "Harvard",
   "Princeton", "California Institute of Technology", "ETH Zurich",
   "University of Oxford", "University of Cambridge", "Imperial College London",
   "University of Washington", "Georgia Tech", "University of Illinois",
   "University of Toronto", "University of Montreal", "University of Michigan",
   "Cornell University", "Columbia University", "University of Pennsylvania",
   "UCLA", "UCSD", "NYU", "University of Texas", "University of Wisconsin"]

/-- The degree-level table of `_score_education`
(src/candidate_scorer.py lines 73-77), in Python dict insertion order. -/
def degree_scores : List (String × Nat) :=
  [("phd", 10), ("doctorate", 10), ("ph.d", 10),
   ("master", 8), ("ms", 8), ("msc", 8), ("ma", 8),
   ("bachelor", 6), ("bs", 6), ("bsc", 6), ("ba", 6)]

/-- School-name resolution of `_score_education` (lines 82-86):
`edu.get('school') or edu.get('schoolName') or edu.get('institution')`
for dicts, the entry itself for strings, None otherwise. -/
def schoolNameOf : JVal → JVal
  | .obj o => pyOr (pyOr (getJ o "school" .null) (getJ o "schoolName" .null)) (getJ o "institution" .null)
  | .str s => .str s
  | _ => .null

/-- Degree-field resolution of `_score_education` (lines 102-106). -/
def degreeFieldOf : JVal → JVal
  | .obj o => pyOr (pyOr (getJ o "degree" .null) (getJ o "degreeName" .null)) (.str "")
  | .str s => .str s
  | _ => .null

/-- First matching entry of the degree table against a lowercased degree
field (the source breaks at the first substring hit), 0 when none match. -/
def degFirstMatch (dl : String) : List (String × Nat) → Nat
  | [] => 0
  | (k, v) :: t => if pySub k dl then v else degFirstMatch dl t

/-- Degree-level score of one entry (lines 108-111): no table iteration
matches when the field is falsy; a truthy non-string raises at `.lower()`. -/
def degScore (df : JVal) : Except String Nat :=
  if truthy df then
    match df with
    | .str s => .ok (degFirstMatch (lowS s) degree_scores)
    | _ => .error "AttributeError: lower"
  else .ok 0

/-- Elite-school test (lines 92-95): any top university is a
case-insensitive substring of the school name. -/
def isEliteSchool (snl : String) : Bool := TOP_UNIVERSITIES.any (fun u => pySub (lowS u) snl)

/-- The entry loop of `_score_education` (lines 80-111), carrying the
running `school_score` and `highest_degree_score`.  Entries without a
truthy school name are skipped entirely (the `continue` at line 89). -/
def eduLoop : List JVal → Nat → Nat → Except String (Nat × Nat)
  | [], ds, hs => .ok (ds, hs)
  | e :: t, ds, hs =>
    let sn := schoolNameOf e
    if truthy sn then
      match pyLowerV sn with
      | .error m => .error m
      | .ok snl =>
        let ds1 := if isEliteSchool snl then max ds 10 else ds
        let ds2 := if ds1 < 5 then 6 else ds1
        match degScore (degreeFieldOf e) with
        | .error m => .error m
        | .ok v => eduLoop t ds2 (max hs v)
    else eduLoop t ds hs

/-- `_score_education` (src/candidate_scorer.py lines 51-120). -/
def score_education (cand : List (String × JVal)) : Except String Nat :=
  let education := resolveField cand "education" (.arr [])
  if truthy education then
    match pyIter education with
    | .error m => .error m
    | .ok entries =>
      match eduLoop entries 0 0 with
      | .error m => .error m
      | .ok (ds, hs) =>
        let prog : Nat := if entries.length > 1 then 8 else 0
        .ok (min 10 (max hs (max ds prog)))
  else .ok 5

/-- Month-abbreviation table of `_score_tenure`
(src/candidate_scorer.py lines 439-440). -/
def month_map : List (String × Nat) :=
  [("jan", 1), ("feb", 2), ("mar", 3), ("apr", 4), ("may", 5), ("jun", 6),
   ("jul", 7), ("aug", 8), ("sep", 9), ("oct", 10), ("nov", 11), ("dec", 12)]

/-- `month_map.get(key, 1)`. -/
def monthLookup (key : String) : Nat :=
  match month_map.find? (fun p => p.1 == key) with
  | some p => p.2
  | none => 1

/-- Leap-year test of the proleptic Gregorian calendar used by Python
`datetime.date`. -/
def isLeap (y : Nat) : Bool := (y % 4 == 0 && y % 100 != 0) || y % 400 == 0

/-- Cumulative day counts before each month. -/
def daysBeforeMonth (leap : Bool) (m : Nat) : Nat :=
  (List.take (m - 1) [31, 28, 31, 30, 31, 30, 31, 31, 30, 31, 30, 31]).sum +
    (if leap && m > 2 then 1 else 0)

/-- Python `datetime(y, m, 1).toordinal()`: day number of the first of the
month in the proleptic Gregorian calendar (year 1, Jan 1 = day 1). -/
def ordinalYM (y m : Nat) : Nat :=
  365 * (y - 1) + (y - 1) / 4 - (y - 1) / 100 + (y - 1) / 400 + daysBeforeMonth (isLeap y) m + 1

/-- The `"Mon YYYY"` parser of `_score_tenure` (lines 437-451): split on
whitespace, month via `month_map` with default 1 on the lowercased first
three characters, year via `int(...)`; `none` covers both a silent
non-parse (fewer than two fields) and a swallowed `ValueError` from
`int()` or from `datetime()` on a year outside 1..9999. -/
def parseMonthYear (s : String) : Option Int :=
  match pySplitWS s with
  | p0 :: p1 :: _ =>
    let m := monthLookup ⟨(p0.data.map lowChar).take 3⟩
    match pyInt p1 with
    | some y => if 1 ≤ y ∧ y ≤ 9999 then some (ordinalYM y.toNat m) else none
    | none => none
  | _ => none

/-- Day-length contribution of one experience entry to the tenure average
(lines 413-461): entries with a truthy `duration` are skipped before any
date parsing, a `dates` string is split on `" - "`, `"present"`
(case-insensitive) maps the end to today, and any parse failure yields no
contribution.  The source divides each day count by 365 immediately; since
every contribution shares that denominator we carry the exact day count
and divide once in `score_tenure`. -/
def entryDays (today : Int) (exp : JVal) : Option Int :=
  match exp with
  | .obj o =>
    if truthy (getJ o "duration" (.str "")) then none
    else
      match lookupJ o "dates" with
      | some (.str dr) =>
        match pySplitSep " - " dr with
        | d0 :: d1 :: _ =>
          let endD : Option Int :=
            if pySub "present" (lowS d1) then some today else parseMonthYear d1
          match parseMonthYear d0, endD with
          | some s, some e => some (e - s)
          | _, _ => none
        | _ => none
      | _ => none
  | _ => none

/-- Accumulation loop of `_score_tenure` (lines 410-461): total days of the
parseable entries and their count. -/
def tenureLoop (today : Int) : List JVal → Int → Nat → Int × Nat
  | [], tot, cnt => (tot, cnt)
  | e :: t, tot, cnt =>
    match entryDays today e with
    | some d => tenureLoop today t (tot + d) (cnt + 1)
    | none => tenureLoop today t tot cnt

/-- `_score_tenure` (src/candidate_scorer.py lines 393-478); `today` is the
ordinal of `datetime.now()`.  The source compares
`avg = (Σ days_i / 365) / count` against 3, 2, 1.5 and 1; with
`count > 0` these are exactly the integer comparisons below
(`avg ≥ q` iff `Σ days_i ≥ q · 365 · count`, all arithmetic exact). -/
def score_tenure (today : Int) (cand : List (String × JVal)) : Except String Nat :=
  let experience := resolveField cand "experience" (.arr [])
  if truthy experience then
    match pyIter experience with
    | .error m => .error m
    | .ok l =>
      let tc := tenureLoop today l 0 0
      if tc.2 > 0 then
        let d := tc.1
        let n : Int := 365 * (tc.2 : Int)
        .ok (min 10 (if d ≥ 3 * n then 10 else if d ≥ 2 * n then 9
          else if 2 * d ≥ 3 * n then 8 else if d ≥ n then 7 else 5))
      else .ok (min 10 5)
  else .ok 5

/-- One entry of the normalized list `_score_career_trajectory` builds
(lines 159-164). -/
structure BExp where
  title : JVal
  company : JVal
  startD : Option String
  endD : Option String

/-- Entry normalization of `_score_career_trajectory` (lines 140-164):
dict entries are mapped to title/company/start/end, everything else is
dropped from the sorted list. -/
def buildExp (nowStr : String) (exp : JVal) : Option BExp :=
  match exp with
  | .obj o =>
    let title := pyOr (getJ o "title" (.str "")) (getJ o "jobTitle" (.str ""))
    let company := pyOr (getJ o "company" (.str "")) (getJ o "companyName" (.str ""))
    let se : Option String × Option String :=
      match lookupJ o "dates" with
      | some (.str dr) =>
        match pySplitSep " - " dr with
        | d0 :: d1 :: _ => (some d0, some (if d1 == "Present" then nowStr else d1))
        | _ => (none, none)
      | _ => (none, none)
    some ⟨title, company, se.1, se.2⟩
  | _ => none

/-- Code-point lexicographic order on character lists, as Python string
comparison. -/
def ltL : List Char → List Char → Bool
  | [], [] => false
  | [], _ :: _ => true
  | _ :: _, [] => false
  | a :: as, b :: bs => Nat.blt a.toNat b.toNat || (a == b && ltL as bs)

/-- Python `s < t` on strings. -/
def pyLt (s t : String) : Bool := ltL s.data t.data

/-- Sort key of line 168: the entry's start date (empty for `None`,
unreachable on the sorted path). -/
def startKey (b : BExp) : String :=
  match b.startD with
  | some s => s
  | none => ""

/-- Stable insertion used to model Python's stable `list.sort`. -/
def insSorted (x : BExp) : List BExp → List BExp
  | [] => [x]
  | y :: t => if !pyLt (startKey y) (startKey x) then x :: y :: t else y :: insSorted x t

/-- Stable sort by start date (line 168); any stable sort agrees with
Python's Timsort on a total key order. -/
def sortByStart : List BExp → List BExp
  | [] => []
  | x :: t => insSorted x (sortByStart t)

/-- The normalized entry as the dict appended at lines 159-164. -/
def bexpToJ (b : BExp) : JVal :=
  let os : Option String → JVal := fun o =>
    match o with
    | some s => .str s
    | none => .null
  .obj [("title", b.title), ("company", b.company), ("start_date", os b.startD), ("end_date", os b.endD)]

/-- Promotion-indicator vocabulary (line 185). -/
def promotion_indicators : List String :=
  ["senior", "lead", "manager", "director", "vp", "head", "chief"]

/-- Title extraction of the growth loop (lines 178-180). -/
def currentTitleOf (exp : JVal) : JVal :=
  match exp with
  | .obj o => pyOr (getJ o "title" (.str "")) (getJ o "jobTitle" (.str ""))
  | _ => .str ""

/-- Growth-indicator count contributed by one consecutive title pair
(lines 183-188); `previous_title.lower()` is only reached when some
indicator occurs in the current title, mirroring the `and` short-circuit. -/
def growthStep (prev cur : JVal) : Except String Nat :=
  if truthy prev && truthy cur then
    match pyLowerV cur with
    | .error m => .error m
    | .ok cl =>
      if promotion_indicators.any (fun i => pySub i cl) then
        match pyLowerV prev with
        | .error m => .error m
        | .ok pl => .ok (promotion_indicators.filter (fun i => pySub i cl && !pySub i pl)).length
      else .ok 0
  else .ok 0

/-- The growth loop of `_score_career_trajectory` (lines 174-190). -/
def growthLoop : List JVal → JVal → Nat → Except String Nat
  | [], _, g => .ok g
  | e :: t, prev, g =>
    let cur := currentTitleOf e
    match growthStep prev cur with
    | .error m => .error m
    | .ok d => growthLoop t cur (g + d)

/-- Truthiness of the first built entry's start date (line 167). -/
def truthyStart (b : BExp) : Bool :=
  match b.startD with
  | some s => !s.data.isEmpty
  | none => false

/-- `_score_career_trajectory` (src/candidate_scorer.py lines 122-202).
The `try` block catches the `TypeError` Python raises when `list.sort`
compares a `None` start date (any is compared once the first entry's
start date is truthy and a second entry exists), in which case the
original entry list is used unsorted (line 171). -/
def score_career_trajectory (nowStr : String) (cand : List (String × JVal)) : Except String Nat :=
  let experience := resolveField cand "experience" (.arr [])
  if truthy experience then
    match pyLen experience with
    | .error m => .error m
    | .ok n =>
      if n == 0 then .ok 5
      else
        match pyIter experience with
        | .error m => .error m
        | .ok orig =>
          let built := orig.filterMap (buildExp nowStr)
          let sortedE : List JVal :=
            match built with
            | [] => []
            | b :: _ =>
              if truthyStart b then
                if built.all (fun x => x.startD.isSome) then (sortByStart built).map bexpToJ
                else orig
              else built.map bexpToJ
          match growthLoop sortedE .null 0 with
          | .error m => .error m
          | .ok g =>
            .ok (min 10 (if g ≥ 2 then 8 else if g == 1 then 7
              else if sortedE.length ≥ 3 then 6 else 5))
  else .ok 5

/-- TOP_ML_COMPANIES from src/config.py. -/
def TOP_ML_COMPANIES : List String :=
  ["Google", "DeepMind", "OpenAI", "Microsoft", "Meta", "Apple",
   "Amazon", "Anthropic", "Inflection AI", "Hugging Face", "Cohere",
   "Stability AI", "Midjourney", "GitHub", "Cursor", "Replit",
   "Databricks", "Scale AI", "Nvidia", "Intel", "IBM", "Salesforce",
   "Adobe", "Twitter", "LinkedIn", "Snapchat", "TikTok", "Netflix",
   "Uber", "Lyft", "Airbnb", "Spotify", "Pinterest", "Stripe",
   "Waymo", "Tesla", "Cruise", "Aurora"]

/-- Relevant-industry keywords of `_score_company_relevance`
(lines 240-243). -/
def relevant_keywords : List String :=
  ["ai", "ml", "machine learning", "artificial intelligence",
   "tech", "software", "data", "research", "nlp", "computer vision"]

/-- Company-name resolution (lines 222-228): structured field for dicts,
text after splitting on the literal `"at"` for strings containing it. -/
def companyNameOf (exp : JVal) : JVal :=
  match exp with
  | .obj o => pyOr (getJ o "company" (.str "")) (getJ o "companyName" (.str ""))
  | .str s =>
    if pySub "at" s then
      match (pySplitSep "at" s).getLast? with
      | some last => .str (pyStrip last)
      | none => .null
    else .null
  | _ => .null

/-- The entry loop of `_score_company_relevance` (lines 222-247), carrying
the running highest company score. -/
def companyLoop : List JVal → Nat → Except String Nat
  | [], hi => .ok hi
  | e :: t, hi =>
    let cn := companyNameOf e
    if truthy cn then
      match pyLowerV cn with
      | .error m => .error m
      | .ok low =>
        let hi1 := if TOP_ML_COMPANIES.any (fun c => pySub (lowS c) low) then max hi 10 else hi
        let hi2 := if relevant_keywords.any (fun k => pySub k low) then max hi1 8 else hi1
        companyLoop t hi2
    else companyLoop t hi

/-- `_score_company_relevance` (src/candidate_scorer.py lines 204-255). -/
def score_company_relevance (cand : List (String × JVal)) : Except String Nat :=
  let experience := resolveField cand "experience" (.arr [])
  if truthy experience then
    match pyIter experience with
    | .error m => .error m
    | .ok l =>
      match companyLoop l 0 with
      | .error m => .error m
      | .ok hi => .ok (min 10 (if hi > 0 then hi else 5))
  else .ok 5

/-- ML_AI_SKILLS from src/config.py. -/
def ML_AI_SKILLS : List String :=
  ["machine learning", "deep learning", "artificial intelligence", "neural networks",
   "natural language processing", "NLP", "computer vision", "reinforcement learning",
   "transformer models", "GPT", "BERT", "large language models", "LLMs", "PyTorch",
   "TensorFlow", "Keras", "JAX", "scikit-learn", "data science", "AI research",
   "model training", "fine-tuning", "prompt engineering", "vector embeddings",
   "transfer learning", "generative AI", "diffusion models", "multimodal models"]

/-- ML/AI keyword-boost vocabulary of `_score_experience_match`
(lines 328-331). -/
def ml_ai_keywords : List String :=
  ["machine learning", "deep learning", "ai", "artificial intelligence",
   "ml engineer", "research", "pytorch", "tensorflow", "nlp", "llm"]

/-- Python string coercion in `text + " "`: a non-string raises
`TypeError`. -/
def asStr : JVal → Except String String
  | .str s => .ok s
  | _ => .error "TypeError: can only concatenate str"

/-- The experience-text accumulation of `_score_experience_match`
(lines 271-278). -/
def expTextLoop : List JVal → String → Except String String
  | [], acc => .ok acc
  | e :: t, acc =>
    match e with
    | .obj o =>
      match asStr (getJ o "title" (.str "")) with
      | .error m => .error m
      | .ok ts =>
        match asStr (getJ o "description" (.str "")) with
        | .error m => .error m
        | .ok ds => expTextLoop t (acc ++ ts ++ " " ++ ds ++ " ")
    | .str s => expTextLoop t (acc ++ s ++ " ")
    | _ => expTextLoop t acc

/-- The skill-name normalization of `_score_experience_match`
(lines 291-298). -/
def skillListLoop : List JVal → List JVal
  | [] => []
  | s :: t =>
    match s with
    | .obj o =>
      let nm := pyOr (getJ o "name" (.str "")) (getJ o "skillName" (.str ""))
      if truthy nm then nm :: skillListLoop t else skillListLoop t
    | .str st => .str st :: skillListLoop t
    | _ => skillListLoop t

/-- Inner loop of the skill matcher (lines 305-308): first candidate skill
with a case-insensitive substring match in either direction. -/
def firstSkillMatch (req : JVal) : List JVal → Except String Bool
  | [] => .ok false
  | cs :: t =>
    match pyLowerV req with
    | .error m => .error m
    | .ok rl =>
      match pyLowerV cs with
      | .error m => .error m
      | .ok cl => if pySub rl cl || pySub cl rl then .ok true else firstSkillMatch req t

/-- Outer loop of the skill matcher (lines 304-308), counting matching
required skills. -/
def matchingLoop (skillList : List JVal) : List JVal → Nat → Except String Nat
  | [], m => .ok m
  | req :: t, m =>
    match firstSkillMatch req skillList with
    | .error msg => .error msg
    | .ok b => matchingLoop skillList t (if b then m + 1 else m)

/-- `_score_experience_match` (src/candidate_scorer.py lines 257-342);
`jobReq` is the `self.job_requirements` dict built by
`parse_job_requirements` in `__init__`.  The source compares
`match_percentage = matching / len(required_skills)` against
0.9 / 0.7 / 0.5 / 0.3; with a positive length these are exactly the
integer cross-multiplications below. -/
def score_experience_match (jobReq : List (String × JVal)) (cand : List (String × JVal)) :
    Except String Nat :=
  let skills := resolveField cand "skills" (.arr [])
  let expTextE : Except String String :=
    if hasKeyJ cand "experience" then
      match pyIter (getJ cand "experience" .null) with
      | .error m => .error m
      | .ok l => expTextLoop l ""
    else .ok ""
  match expTextE with
  | .error m => .error m
  | .ok expText =>
    let headline := getJ cand "headline" (.str "")
    let skillsL : Except String (List JVal) :=
      if truthy skills then pyIter skills
      else
        match pyLowerV headline with
        | .error m => .error m
        | .ok hl =>
          .ok ((ML_AI_SKILLS.filter
            (fun sk => pySub (lowS sk) hl || pySub (lowS sk) (lowS expText))).map .str)
    match skillsL with
    | .error m => .error m
    | .ok rawSkills =>
      let skillList := skillListLoop rawSkills
      let reqV := getJ jobReq "required_skills" (.arr [])
      match pyIter reqV with
      | .error m => .error m
      | .ok reqList =>
        match matchingLoop skillList reqList 0 with
        | .error m => .error m
        | .ok matching =>
          let score1 : Nat :=
            if truthy reqV then
              let len := reqList.length
              if 10 * matching ≥ 9 * len then 10
              else if 10 * matching ≥ 7 * len then 9
              else if 2 * matching ≥ len then 8
              else if 10 * matching ≥ 3 * len then 7
              else if matching > 0 then 6 else 5
            else 5
          match pyLowerV headline with
          | .error m => .error m
          | .ok hl =>
            let kw := (ml_ai_keywords.filter
              (fun k => pySub k hl || pySub k (lowS expText))).length
            .ok (min 10 (if kw ≥ 3 && score1 < 8 then score1 + 1 else score1))

/-- TARGET_LOCATION from src/config.py. -/
def TARGET_LOCATION : String := "Mountain View"

/-- NEARBY_LOCATIONS from src/config.py. -/
def NEARBY_LOCATIONS : List String :=
  ["San Francisco", "Palo Alto", "Menlo Park", "Sunnyvale",
   "Santa Clara", "San Jose", "Redwood City", "Cupertino"]

/-- `_score_location_match` (src/candidate_scorer.py lines 344-391). -/
def score_location_match (cand : List (String × JVal)) : Except String Nat :=
  let location := resolveField cand "location" (.str "")
  let afterHeadline : Except String (Option JVal) :=
    if truthy location then .ok (some location)
    else
      let headline := getJ cand "headline" (.str "")
      match pyLowerV headline with
      | .error m => .error m
      | .ok hl =>
        if pySub "remote" hl then .ok none
        else
          match (TARGET_LOCATION :: NEARBY_LOCATIONS).find? (fun c => pySub (lowS c) hl) with
          | some city => .ok (some (.str city))
          | none => .ok (some location)
  match afterHeadline with
  | .error m => .error m
  | .ok none => .ok 6
  | .ok (some loc) =>
    if truthy loc then
      match pyLowerV loc with
      | .error m => .error m
      | .ok ll =>
        let s1 : Nat :=
          if pySub (lowS TARGET_LOCATION) ll then 10
          else
            let s0 : Nat := if NEARBY_LOCATIONS.any (fun c => pySub (lowS c) ll) then 8 else 5
            if pySub "ca" ll || pySub "california" ll then max s0 7 else s0
        .ok (min 10 (if pySub "remote" ll then max s1 6 else s1))
    else .ok 5

/-- SCORING_WEIGHTS from src/config.py (lines 22-29). -/
def SCORING_WEIGHTS : List (String × Rat) :=
  [("education", 0.20), ("career_trajectory", 0.20), ("company_relevance", 0.15),
   ("experience_match", 0.25), ("location_match", 0.10), ("tenure", 0.10)]

/-- Category lookup in a breakdown, 0 when absent. -/
def lookupRat : List (String × Rat) → String → Rat
  | [], _ => 0
  | (k, v) :: t, key => if k == key then v else lookupRat t key

/-- Modelled from the spec: `calculate_weighted_average` is imported from
`utils` by src/candidate_scorer.py line 7 but is absent from src/utils.py;
spec §4.4 defines it as `total = Σ(weight_c × score_c)` over the fixed
weight table. -/
def calculate_weighted_average (scores weights : List (String × Rat)) : Rat :=
  (weights.map (fun cw => cw.2 * lookupRat scores cw.1)).sum

/-- The result of `score_candidate`: total plus per-category breakdown. -/
structure ScoreResult where
  total : Rat
  breakdown : List (String × Rat)
  deriving DecidableEq

/-- `score_candidate` (src/candidate_scorer.py lines 20-49).  A falsy
candidate short-circuits to a zero total with an empty breakdown; a truthy
non-dict raises at the first `candidate.get` call. -/
def score_candidate (jobReq : List (String × JVal)) (today : Int) (nowStr : String)
    (cand : JVal) : Except String ScoreResult :=
  if truthy cand then
    match cand with
    | .obj c =>
      match score_education c with
      | .error m => .error m
      | .ok e =>
        match score_career_trajectory nowStr c with
        | .error m => .error m
        | .ok car =>
          match score_company_relevance c with
          | .error m => .error m
          | .ok com =>
            match score_experience_match jobReq c with
            | .error m => .error m
            | .ok ex =>
              match score_location_match c with
              | .error m => .error m
              | .ok lo =>
                match score_tenure today c with
                | .error m => .error m
                | .ok te =>
                  let breakdown : List (String × Rat) :=
                    [("education", (e : Rat)), ("career_trajectory", (car : Rat)),
                     ("company_relevance", (com : Rat)), ("experience_match", (ex : Rat)),
                     ("location_match", (lo : Rat)), ("tenure", (te : Rat))]
                  .ok ⟨calculate_weighted_average breakdown SCORING_WEIGHTS, breakdown⟩
    | _ => .error "AttributeError: get"
  else .ok ⟨0, []⟩

/-! ### Range lemmas for the six category scorers -/

theorem score_education_le10 (c : List (String × JVal)) (n : Nat)
    (h : score_education c = .ok n) : n ≤ 10 := by
  simp only [score_education] at h
  repeat' split at h
  all_goals first
    | exact Except.noConfusion h
    | (injection h with h; omega)

theorem score_career_le10 (ns : String) (c : List (String × JVal)) (n : Nat)
    (h : score_career_trajectory ns c = .ok n) : n ≤ 10 := by
  simp only [score_career_trajectory] at h
  repeat' split at h
  all_goals first
    | exact Except.noConfusion h
    | (injection h with h; omega)

theorem score_company_le10 (c : List (String × JVal)) (n : Nat)
    (h : score_company_relevance c = .ok n) : n ≤ 10 := by
  simp only [score_company_relevance] at h
  repeat' split at h
  all_goals first
    | exact Except.noConfusion h
    | (injection h with h; omega)

theorem score_experience_le10 (jr c : List (String × JVal)) (n : Nat)
    (h : score_experience_match jr c = .ok n) : n ≤ 10 := by
  simp only [score_experience_match] at h
  repeat' split at h
  all_goals first
    | exact Except.noConfusion h
    | (injection h with h; omega)

theorem score_location_le10 (c : List (String × JVal)) (n : Nat)
    (h : score_location_match c = .ok n) : n ≤ 10 := by
  simp only [score_location_match] at h
  repeat' split at h
  all_goals first
    | exact Except.noConfusion h
    | (injection h with h; omega)

theorem score_tenure_le10 (today : Int) (c : List (String × JVal)) (n : Nat)
    (h : score_tenure today c = .ok n) : n ≤ 10 := by
  simp only [score_tenure] at h
  repeat' split at h
  all_goals first
    | exact Except.noConfusion h
    | (injection h with h; omega)

/-- The weighted average of a six-category breakdown, written out. -/
theorem cwa_breakdown_eq (e c co x l t : Rat) :
    calculate_weighted_average
      [("education", e), ("career_trajectory", c), ("company_relevance", co),
       ("experience_match", x), ("location_match", l), ("tenure", t)] SCORING_WEIGHTS =
      (1 / 5) * e + (1 / 5) * c + (3 / 20) * co + (1 / 4) * x + (1 / 10) * l + (1 / 10) * t := by
  simp only [calculate_weighted_average, SCORING_WEIGHTS, lookupRat, List.map, List.sum_cons,
    List.sum_nil, String.reduceEq, beq_iff_eq, reduceIte]
  norm_num
  ring

/-- The weighted average of an empty breakdown is 0. -/
theorem cwa_nil : calculate_weighted_average [] SCORING_WEIGHTS = 0 := by
  simp only [calculate_weighted_average, SCORING_WEIGHTS, lookupRat, List.map, List.sum_cons,
    List.sum_nil]
  norm_num

/-- Case analysis of a successful `score_candidate` run: either the
candidate was falsy and the sanctioned zero short-circuit fired, or all
six category scorers succeeded and the result is their breakdown with the
weighted total. -/
theorem score_candidate_ok_cases (jobReq : List (String × JVal)) (today : Int) (nowStr : String)
    (cand : JVal) (r : ScoreResult)
    (h : score_candidate jobReq today nowStr cand = .ok r) :
    (truthy cand = false ∧ r = ⟨0, []⟩) ∨
    ∃ (l : List (String × JVal)) (e c co x lo te : Nat),
      cand = .obj l ∧
      score_education l = .ok e ∧ score_career_trajectory nowStr l = .ok c ∧
      score_company_relevance l = .ok co ∧ score_experience_match jobReq l = .ok x ∧
      score_location_match l = .ok lo ∧ score_tenure today l = .ok te ∧
      r = ⟨calculate_weighted_average
            [("education", (e : Rat)), ("career_trajectory", (c : Rat)),
             ("company_relevance", (co : Rat)), ("experience_match", (x : Rat)),
             ("location_match", (lo : Rat)), ("tenure", (te : Rat))] SCORING_WEIGHTS,
          [("education", (e : Rat)), ("career_trajectory", (c : Rat)),
           ("company_relevance", (co : Rat)), ("experience_match", (x : Rat)),
           ("location_match", (lo : Rat)), ("tenure", (te : Rat))]⟩ := by
  simp only [score_candidate] at h
  split at h
  case isFalse ht =>
    injection h with h
    exact Or.inl ⟨by simpa using ht, h.symm⟩
  case isTrue ht =>
    right
    match hc : cand with
    | .obj c =>
      simp only at h
      cases he : score_education c with
      | error m =>
        exact Except.noConfusion (he ▸ h)
      | ok e =>
        simp only [he] at h
        cases hca : score_career_trajectory nowStr c with
        | error m =>
        exact Except.noConfusion (hca ▸ h)
        | ok car =>
          simp only [hca] at h
          cases hco : score_company_relevance c with
          | error m =>
        exact Except.noConfusion (hco ▸ h)
          | ok com =>
            simp only [hco] at h
            cases hx : score_experience_match jobReq c with
            | error m =>
        exact Except.noConfusion (hx ▸ h)
            | ok x =>
              simp only [hx] at h
              cases hlo : score_location_match c with
              | error m =>
        exact Except.noConfusion (hlo ▸ h)
              | ok lo =>
                simp only [hlo] at h
                cases hte : score_tenure today c with
                | error m =>
        exact Except.noConfusion (hte ▸ h)
                | ok te =>
                  simp only [hte] at h
                  injection h with h
                  exact ⟨c, e, car, com, x, lo, te, rfl, he, hca, hco, hx, hlo, hte, h.symm⟩

/-! ### Claims C1, C2, C3, C4, C5 -/

/-- The six-category breakdown of the spec's aggregator example. -/
def exampleBreakdown : List (String × Rat) :=
  [("education", 8), ("career_trajectory", 6), ("company_relevance", 7),
   ("experience_match", 9), ("location_match", 10), ("tenure", 5)]

/-- Claim C2: for every candidate record, every one of the six category
scores returned by `score_candidate` lies in [0, 10], and the total lies
in [0, 10]. -/
theorem claim_C2_scores_in_range (jobReq : List (String × JVal)) (today : Int) (nowStr : String)
    (cand : JVal) (r : ScoreResult)
    (h : score_candidate jobReq today nowStr cand = .ok r) :
    (∀ p ∈ r.breakdown, 0 ≤ p.2 ∧ p.2 ≤ 10) ∧ 0 ≤ r.total ∧ r.total ≤ 10 := by
  rcases score_candidate_ok_cases jobReq today nowStr cand r h with
    ⟨-, rfl⟩ | ⟨l, e, c, co, x, lo, te, -, he, hc, hco, hx, hlo, hte, rfl⟩
  · exact ⟨by simp, by norm_num, by norm_num⟩
  · have b1 := score_education_le10 l e he
    have b2 := score_career_le10 nowStr l c hc
    have b3 := score_company_le10 l co hco
    have b4 := score_experience_le10 jobReq l x hx
    have b5 := score_location_le10 l lo hlo
    have b6 := score_tenure_le10 today l te hte
    have q1 : (e : Rat) ≤ 10 := by exact_mod_cast b1
    have q2 : (c : Rat) ≤ 10 := by exact_mod_cast b2
    have q3 : (co : Rat) ≤ 10 := by exact_mod_cast b3
    have q4 : (x : Rat) ≤ 10 := by exact_mod_cast b4
    have q5 : (lo : Rat) ≤ 10 := by exact_mod_cast b5
    have q6 : (te : Rat) ≤ 10 := by exact_mod_cast b6
    have z1 : (0 : Rat) ≤ e := Nat.cast_nonneg e
    have z2 : (0 : Rat) ≤ c := Nat.cast_nonneg c
    have z3 : (0 : Rat) ≤ co := Nat.cast_nonneg co
    have z4 : (0 : Rat) ≤ x := Nat.cast_nonneg x
    have z5 : (0 : Rat) ≤ lo := Nat.cast_nonneg lo
    have z6 : (0 : Rat) ≤ te := Nat.cast_nonneg te
    refine ⟨?_, ?_, ?_⟩
    · intro p hp
      simp only [List.mem_cons, List.not_mem_nil, or_false] at hp
      rcases hp with rfl | rfl | rfl | rfl | rfl | rfl
      · exact ⟨z1, q1⟩
      · exact ⟨z2, q2⟩
      · exact ⟨z3, q3⟩
      · exact ⟨z4, q4⟩
      · exact ⟨z5, q5⟩
      · exact ⟨z6, q6⟩
    · show (0 : Rat) ≤ calculate_weighted_average _ SCORING_WEIGHTS
      rw [cwa_breakdown_eq]
      linarith
    · show calculate_weighted_average _ SCORING_WEIGHTS ≤ 10
      rw [cwa_breakdown_eq]
      linarith

/-- A candidate with one PhD/MIT education entry, used by the witnesses. -/
def witnessCand : JVal :=
  .obj [("education", .arr [.obj [("degree", .str "PhD"), ("school", .str "MIT")]])]

/-- The breakdown `score_candidate` produces for `witnessCand`. -/
def witnessBreakdown : List (String × Rat) :=
  [("education", ((10 : Nat) : Rat)), ("career_trajectory", ((5 : Nat) : Rat)),
   ("company_relevance", ((5 : Nat) : Rat)), ("experience_match", ((5 : Nat) : Rat)),
   ("location_match", ((5 : Nat) : Rat)), ("tenure", ((5 : Nat) : Rat))]

/-- The score result `score_candidate` produces for `witnessCand`. -/
def witnessResult : ScoreResult :=
  ⟨calculate_weighted_average witnessBreakdown SCORING_WEIGHTS, witnessBreakdown⟩

/-- Witness for C2: the range theorem applied to a concrete candidate whose
scoring run evaluates by `rfl`. -/
theorem claim_C2_scores_in_range_witness :
    (∀ p ∈ witnessResult.breakdown, 0 ≤ p.2 ∧ p.2 ≤ 10) ∧
    0 ≤ witnessResult.total ∧ witnessResult.total ≤ 10 :=
  claim_C2_scores_in_range [] 0 "" witnessCand witnessResult rfl

/-- Claim C1 (counterexample): on the spec's example breakdown the weighted
total is not 7.55 (the spec's arithmetic example is off: the sum is 7.6). -/
theorem claim_C1_counterexample :
    calculate_weighted_average exampleBreakdown SCORING_WEIGHTS ≠ (151 / 20 : Rat) := by
  have h38 : calculate_weighted_average exampleBreakdown SCORING_WEIGHTS = (38 / 5 : Rat) := by
    unfold exampleBreakdown
    rw [cwa_breakdown_eq]
    norm_num
  rw [h38]
  norm_num

/-- Claim C1 (amended): the total returned by `score_candidate` is the
weighted sum of the breakdown under the fixed weight table, and on the
example breakdown (education 8, career 6, company 7, experience 9,
location 10, tenure 5) that weighted sum is 7.6. -/
theorem claim_C1_total_is_weighted_sum :
    (∀ (jobReq : List (String × JVal)) (today : Int) (nowStr : String) (cand : JVal)
        (r : ScoreResult),
        score_candidate jobReq today nowStr cand = .ok r →
        r.total = calculate_weighted_average r.breakdown SCORING_WEIGHTS) ∧
    calculate_weighted_average exampleBreakdown SCORING_WEIGHTS = (38 / 5 : Rat) := by
  constructor
  · intro jr today ns cand r h
    rcases score_candidate_ok_cases jr today ns cand r h with
      ⟨-, rfl⟩ | ⟨l, e, c, co, x, lo, te, -, -, -, -, -, -, -, rfl⟩
    · show (0 : Rat) = calculate_weighted_average [] SCORING_WEIGHTS
      rw [cwa_nil]
    · rfl
  · unfold exampleBreakdown
    rw [cwa_breakdown_eq]
    norm_num

/-- Witness for C1: the weighted-sum identity applied to a concrete run. -/
theorem claim_C1_total_is_weighted_sum_witness :
    witnessResult.total = calculate_weighted_average witnessResult.breakdown SCORING_WEIGHTS :=
  claim_C1_total_is_weighted_sum.1 [] 0 "" witnessCand witnessResult rfl

/-- Loading src/config.py: importing the module executes only constant
assignments (src/config.py lines 21-29 merely bind `SCORING_WEIGHTS`); the
file contains no validation code of any kind, so loading succeeds for any
weight table. -/
def loadScoringWeights (w : List (String × Rat)) : Except String (List (String × Rat)) := .ok w

/-- A weight table that does not sum to 1.0. -/
def badWeights : List (String × Rat) := [("education", 9 / 10)]

/-- Claim C4 (counterexample): a weight table summing to 0.9 is loaded
without any error, refuting the claimed load-time validation / fatal
configuration error. -/
theorem claim_C4_counterexample :
    (badWeights.map Prod.snd).sum ≠ 1 ∧ loadScoringWeights badWeights = .ok badWeights := by
  refine ⟨?_, rfl⟩
  simp only [badWeights, List.map, List.sum_cons, List.sum_nil]
  norm_num

/-- Claim C4 (amended): the shipped weight table does sum to 1.0 exactly,
but configuration load performs no validation at all — every table,
conforming or not, loads successfully. -/
theorem claim_C4_weights_sum_but_unvalidated :
    (SCORING_WEIGHTS.map Prod.snd).sum = 1 ∧
    ∀ w : List (String × Rat), loadScoringWeights w = .ok w := by
  refine ⟨?_, fun w => rfl⟩
  simp only [SCORING_WEIGHTS, List.map, List.sum_cons, List.sum_nil]
  norm_num

/-- The `job_requirements` dict `parse_job_requirements`
(src/utils.py lines 143-148) returns for a posting requiring python and
pytorch: the skills sit under the key "skills". -/
def parsedJobReq : List (String × JVal) :=
  [("title", .str "ML Engineer"), ("skills", .arr [.str "python", .str "pytorch"]),
   ("location", .str ""), ("education", .str "")]

/-- The job-requirements dict the scorer actually reads
(src/candidate_scorer.py line 301 looks up "required_skills"). -/
def intendedJobReq : List (String × JVal) :=
  [("required_skills", .arr [.str "python", .str "pytorch"])]

/-- A candidate whose skills are Python and Deep Learning. -/
def skillOnlyCandidate : List (String × JVal) :=
  [("skills", .arr [.str "Python", .str "Deep Learning"])]

/-- Claim C3: `_score_experience_match` reads `required_skills` from the
requirement dict, but `parse_job_requirements` stores the extracted skills
under `skills`, so against the parser's actual output the match count is
always computed over an empty requirement list and the example scores 5,
not the claimed 8; with the skills under the key the scorer expects, the
very same candidate scores 8 exactly as the claim computes. -/
theorem claim_C3_required_skills_key_mismatch :
    score_experience_match parsedJobReq skillOnlyCandidate = .ok 5 ∧
    score_experience_match intendedJobReq skillOnlyCandidate = .ok 8 :=
  ⟨rfl, rfl⟩

/-- Claim C5: the empty mapping short-circuits to a zero total with empty
breakdown, and among mappings it is the only input whose (successful)
result carries an empty breakdown. -/
theorem claim_C5_empty_short_circuit (jobReq : List (String × JVal)) (today : Int)
    (nowStr : String) :
    score_candidate jobReq today nowStr (.obj []) = .ok ⟨0, []⟩ ∧
    ∀ (l : List (String × JVal)) (r : ScoreResult),
      score_candidate jobReq today nowStr (.obj l) = .ok r → r.breakdown = [] → l = [] := by
  refine ⟨rfl, fun l r h hb => ?_⟩
  cases l with
  | nil => rfl
  | cons p t =>
    rcases score_candidate_ok_cases _ _ _ _ _ h with
      ⟨hf, -⟩ | ⟨l2, e, c, co, x, lo, te, -, -, -, -, -, -, -, rfl⟩
    · simp [truthy] at hf
    · simp at hb

/-- Witness for C5: the short-circuit and the uniqueness direction applied
at concrete inputs. -/
theorem claim_C5_empty_short_circuit_witness :
    score_candidate [] 0 "" (.obj []) = .ok ⟨0, []⟩ ∧ ([] : List (String × JVal)) = [] :=
  ⟨(claim_C5_empty_short_circuit [] 0 "").1,
   (claim_C5_empty_short_circuit [] 0 "").2 [] ⟨0, []⟩ rfl rfl⟩

/-! ### Claims C6 and C7: the education scorer against the spec formula -/

/-- Test for a string value. -/
def isStrV : JVal → Bool
  | .str _ => true
  | _ => false

/-- String payload of a value (only used under `isStrV`). -/
def strOf : JVal → String
  | .str s => s
  | _ => ""

/-- Well-formed education entry: its school alias chain and its degree
alias chain each resolve to a string or to a falsy value, so
`_score_education` never raises on the entry. -/
def eduEntryWF (e : JVal) : Bool :=
  (!truthy (schoolNameOf e) || isStrV (schoolNameOf e)) &&
  (!truthy (degreeFieldOf e) || isStrV (degreeFieldOf e))

/-- Value of the degree table read as a keyword lookup (the amended claim's
reading): the maximum value over all keys occurring in the lowercased
degree field. -/
def degMaxMatch (dl : String) : List (String × Nat) → Nat
  | [] => 0
  | (k, v) :: t => max (if pySub k dl then v else 0) (degMaxMatch dl t)

/-- Degree-level score of an entry as the amended claim states it. -/
def specDegree (e : JVal) : Nat :=
  if truthy (degreeFieldOf e) then degMaxMatch (lowS (strOf (degreeFieldOf e))) degree_scores
  else 0

/-- School score of a named entry: 10 on any elite-university substring
match, 6 otherwise. -/
def specSchool (e : JVal) : Nat :=
  if isEliteSchool (lowS (strOf (schoolNameOf e))) then 10 else 6

/-- Education category score as the amended claim states it: over the
entries carrying a truthy school name ("named" entries) the maxima of the
degree-table score and the school score, combined with the progression
score (8 when at least two entries of any form exist), capped at 10.
Entries without a school name contribute nothing: their degree field is
never examined. -/
def eduSpec (entries : List JVal) : Nat :=
  let named := entries.filter (fun e => truthy (schoolNameOf e))
  let degreeMax := named.foldl (fun a e => max a (specDegree e)) 0
  let schoolMax := named.foldl (fun a e => max a (specSchool e)) 0
  let prog : Nat := if entries.length > 1 then 8 else 0
  min 10 (max degreeMax (max schoolMax prog))

theorem degMaxMatch_le (dl : String) :
    ∀ (t : List (String × Nat)) (b : Nat), (∀ p ∈ t, p.2 ≤ b) → degMaxMatch dl t ≤ b := by
  intro t
  induction t with
  | nil => intro b _; simp [degMaxMatch]
  | cons p t ih =>
    intro b hb
    rcases p with ⟨k, v⟩
    have h1 : v ≤ b := hb (k, v) (by simp)
    have h2 := ih b (fun q hq => hb q (List.mem_cons_of_mem _ hq))
    simp only [degMaxMatch]
    cases hs : pySub k dl <;> simp [hs] <;> omega

/-- On a table with nonincreasing values, the source's
first-match-then-break lookup equals the maximum matching value. -/
theorem degFirstMatch_eq_max (dl : String) :
    ∀ t : List (String × Nat), List.Pairwise (fun p q => q.2 ≤ p.2) t →
    degFirstMatch dl t = degMaxMatch dl t := by
  intro t
  induction t with
  | nil => intro _; rfl
  | cons p t ih =>
    intro hp
    rcases List.pairwise_cons.mp hp with ⟨hhead, htail⟩
    rcases p with ⟨k, v⟩
    simp only [degFirstMatch, degMaxMatch]
    have hle : degMaxMatch dl t ≤ v := degMaxMatch_le dl t v hhead
    have heq := ih htail
    cases hs : pySub k dl
    all_goals simp [hs]
    all_goals omega

/-- On a well-formed entry the source's degree loop computes exactly the
amended claim's degree score. -/
theorem degScore_eq_spec (e : JVal) (hwf : eduEntryWF e = true) :
    degScore (degreeFieldOf e) = .ok (specDegree e) := by
  by_cases ht : truthy (degreeFieldOf e) = true
  · have hstr : isStrV (degreeFieldOf e) = true := by
      have h2 := hwf
      simp only [eduEntryWF, Bool.and_eq_true, Bool.or_eq_true, Bool.not_eq_true'] at h2
      rcases h2.2 with h3 | h3
      · rw [h3] at ht; cases ht
      · exact h3
    obtain ⟨s, hs⟩ : ∃ s, degreeFieldOf e = .str s := by
      cases h : degreeFieldOf e <;> rw [h] at hstr <;>
        first
          | exact ⟨_, rfl⟩
          | exact absurd hstr (by simp [isStrV])
    rw [hs] at ht
    unfold degScore specDegree
    rw [hs]
    simp only [ht, if_true, strOf]
    rw [degFirstMatch_eq_max (lowS s) degree_scores (by decide)]
  · simp only [Bool.not_eq_true] at ht
    unfold degScore specDegree
    simp [ht]

/-- Loop invariant of `_score_education`: on well-formed entries and from a
reachable school-score state (0 before any named entry, at least 6 after
one), the loop computes the running maxima of the per-entry school and
degree scores. -/
theorem eduLoop_spec :
    ∀ (entries : List JVal) (ds hs : Nat),
    (∀ e ∈ entries, eduEntryWF e = true) → (ds = 0 ∨ 6 ≤ ds) →
    eduLoop entries ds hs =
      .ok (entries.foldl
            (fun a e => if truthy (schoolNameOf e) then max a (specSchool e) else a) ds,
          entries.foldl
            (fun a e => if truthy (schoolNameOf e) then max a (specDegree e) else a) hs) := by
  intro entries
  induction entries with
  | nil => intro ds hs _ _; rfl
  | cons e t ih =>
    intro ds hs hwf hds
    have hwfe := hwf e (List.mem_cons_self e t)
    have hwft : ∀ x ∈ t, eduEntryWF x = true := fun x hx => hwf x (List.mem_cons_of_mem _ hx)
    by_cases hsn : truthy (schoolNameOf e) = true
    · obtain ⟨s, hseq⟩ : ∃ s, schoolNameOf e = .str s := by
        have hstr : isStrV (schoolNameOf e) = true := by
          have h2 := hwfe
          simp only [eduEntryWF, Bool.and_eq_true, Bool.or_eq_true, Bool.not_eq_true'] at h2
          rcases h2.1 with h3 | h3
          · rw [h3] at hsn; cases hsn
          · exact h3
        cases h : schoolNameOf e <;> rw [h] at hstr <;>
          first
            | exact ⟨_, rfl⟩
            | exact absurd hstr (by simp [isStrV])
      have hspec : specSchool e = if isEliteSchool (lowS s) then 10 else 6 := by
        unfold specSchool
        rw [hseq]
        rfl
      have hds2 :
          (if (if isEliteSchool (lowS s) then max ds 10 else ds) < 5 then 6
           else if isEliteSchool (lowS s) then max ds 10 else ds) = max ds (specSchool e) := by
        rw [hspec]
        cases he : isEliteSchool (lowS s)
        all_goals simp only [he, Bool.false_eq_true, if_false, if_true]
        all_goals rcases hds with rfl | hds6
        all_goals split
        all_goals omega
      have h6 : 6 ≤ specSchool e := by
        rw [hspec]
        split
        all_goals omega
      have hsn2 : truthy (JVal.str s) = true := hseq ▸ hsn
      rw [eduLoop]
      simp only [hseq, hsn2, if_true, pyLowerV]
      rw [degScore_eq_spec e hwfe]
      simp only [hds2]
      rw [ih (max ds (specSchool e)) (max hs (specDegree e)) hwft
          (Or.inr (le_trans h6 (Nat.le_max_right ds (specSchool e))))]
      simp only [List.foldl_cons, hsn, if_true]
    · have hsn2 : truthy (schoolNameOf e) = false := by
        cases h : truthy (schoolNameOf e)
        · rfl
        · exact absurd h hsn
      rw [eduLoop]
      simp only [hsn2, Bool.false_eq_true, if_false]
      rw [ih ds hs hwft hds]
      simp only [List.foldl_cons, hsn2, Bool.false_eq_true, if_false]

/-- A conditional max-fold over a list is the max-fold over the filtered
list. -/
theorem foldl_max_filter (f : JVal → Nat) :
    ∀ (l : List JVal) (i : Nat),
    l.foldl (fun a e => if truthy (schoolNameOf e) then max a (f e) else a) i =
    (l.filter (fun e => truthy (schoolNameOf e))).foldl (fun a e => max a (f e)) i := by
  intro l
  induction l with
  | nil => intro i; rfl
  | cons e t ih =>
    intro i
    by_cases h : truthy (schoolNameOf e) = true
    · simp only [List.foldl_cons, List.filter_cons, h, if_true, ih]
    · have h2 : truthy (schoolNameOf e) = false := by
        cases hx : truthy (schoolNameOf e)
        · rfl
        · exact absurd hx h
      simp only [List.foldl_cons, List.filter_cons, h2, Bool.false_eq_true, if_false, ih]

/-- Claim C6 (amended): for a candidate whose education list is nonempty
and whose entries are well formed, the education score is exactly the
amended claim's formula `eduSpec`: the maxima of degree-table and school
scores over the entries that carry a school name (entries without one are
skipped entirely, their degree field never examined), combined with the
progression score and capped at 10. -/
theorem claim_C6_education_formula (entries : List JVal) (rest : List (String × JVal))
    (hne : entries ≠ []) (hwf : ∀ e ∈ entries, eduEntryWF e = true) :
    score_education (("education", .arr entries) :: rest) = .ok (eduSpec entries) := by
  obtain ⟨a, t, rfl⟩ := List.exists_cons_of_ne_nil hne
  unfold score_education
  have hres : resolveField (("education", .arr (a :: t)) :: rest) "education" (.arr []) =
      .arr (a :: t) := by
    unfold resolveField getJ lookupJ
    simp [truthy]
  rw [hres]
  simp only [truthy, List.isEmpty_cons, Bool.not_false, if_true, pyIter]
  rw [eduLoop_spec (a :: t) 0 0 hwf (Or.inl rfl)]
  unfold eduSpec
  rw [foldl_max_filter specSchool (a :: t) 0, foldl_max_filter specDegree (a :: t) 0]

/-- The Python value of `education = [ {degree: PhD} ]` (an entry with a
degree but no recognized school key). -/
def degreeOnlyEducation : List (String × JVal) :=
  [("education", .arr [.obj [("degree", .str "PhD")]])]

/-- Claim C6 (counterexample): an education entry carrying only a PhD
degree and no school name scores 0, not the 10 the claim's formula
predicts — the degree field of a school-less entry is never examined. -/
theorem claim_C6_counterexample :
    score_education degreeOnlyEducation = .ok 0 ∧
    score_education degreeOnlyEducation ≠ .ok 10 := by
  refine ⟨rfl, fun hc => ?_⟩
  have h0 : score_education degreeOnlyEducation = .ok 0 := rfl
  injection h0.symm.trans hc with hne
  exact absurd hne (by decide)

/-- Witness for C6: the amended formula evaluated on the spec's own
PhD/MIT example, which scores 10. -/
theorem claim_C6_education_formula_witness :
    score_education [("education", .arr [.obj [("degree", .str "PhD"), ("school", .str "MIT")]])] =
      .ok (eduSpec [.obj [("degree", .str "PhD"), ("school", .str "MIT")]]) ∧
    eduSpec [.obj [("degree", .str "PhD"), ("school", .str "MIT")]] = 10 :=
  ⟨claim_C6_education_formula [.obj [("degree", .str "PhD"), ("school", .str "MIT")]] []
      (by simp) (by decide),
   rfl⟩

/-- The entry loop of `_score_education` leaves its state untouched when no
entry carries a truthy school name. -/
theorem eduLoop_skip :
    ∀ (entries : List JVal) (ds hs : Nat),
    (∀ e ∈ entries, truthy (schoolNameOf e) = false) →
    eduLoop entries ds hs = .ok (ds, hs) := by
  intro entries
  induction entries with
  | nil => intro ds hs _; rfl
  | cons e t ih =>
    intro ds hs hmal
    have h1 := hmal e (List.mem_cons_self e t)
    rw [eduLoop]
    simp only [h1, Bool.false_eq_true, if_false]
    exact ih ds hs (fun x hx => hmal x (List.mem_cons_of_mem _ hx))

/-- Claim C7 (amended): when every entry of a nonempty education list is
malformed — of the wrong type, or a dict none of whose recognized school
keys holds a truthy value — `_score_education` skips every entry and never
raises, but the returned fallback is `max(0, progression)`: 0 for a single
malformed entry and 8 for two or more (the progression score), not the
documented category default of 5. -/
theorem claim_C7_malformed_fallback (entries : List JVal) (rest : List (String × JVal))
    (hne : entries ≠ []) (hmal : ∀ e ∈ entries, truthy (schoolNameOf e) = false) :
    score_education (("education", .arr entries) :: rest) =
      .ok (if entries.length > 1 then 8 else 0) := by
  obtain ⟨a, t, rfl⟩ := List.exists_cons_of_ne_nil hne
  unfold score_education
  have hres : resolveField (("education", .arr (a :: t)) :: rest) "education" (.arr []) =
      .arr (a :: t) := by
    unfold resolveField getJ lookupJ
    simp [truthy]
  rw [hres]
  simp only [truthy, List.isEmpty_cons, Bool.not_false, if_true, pyIter]
  rw [eduLoop_skip (a :: t) 0 0 hmal]
  simp only [Nat.max_zero, Nat.zero_max]
  split
  · rfl
  · rfl

/-- The Python value of `education = [ {} ]`. -/
def emptyDictEducation : List (String × JVal) :=
  [("education", .arr [.obj []])]

/-- Claim C7 (counterexample): a single entirely malformed education entry
(an empty dict) yields a score of 0, not the documented default 5 the
claim asserts. -/
theorem claim_C7_counterexample :
    score_education emptyDictEducation = .ok 0 ∧
    score_education emptyDictEducation ≠ .ok 5 := by
  refine ⟨rfl, fun hc => ?_⟩
  have h0 : score_education emptyDictEducation = .ok 0 := rfl
  injection h0.symm.trans hc with hne
  exact absurd hne (by decide)

/-- Witness for C7: the amended fallback applied to the single empty-dict
entry. -/
theorem claim_C7_malformed_fallback_witness :
    score_education [("education", .arr [.obj []])] =
      .ok (if ([JVal.obj []] : List JVal).length > 1 then 8 else 0) :=
  claim_C7_malformed_fallback [.obj []] [] (by simp) (by decide)

/-! ### Claims C8 and C10 -/

/-- Type discipline under which `_score_location_match` cannot raise: the
resolved location is a string when truthy, and otherwise the headline
value read for the fallback is a string. -/
def locWF (cand : List (String × JVal)) : Bool :=
  if truthy (resolveField cand "location" (.str "")) then
    isStrV (resolveField cand "location" (.str ""))
  else isStrV (getJ cand "headline" (.str ""))

/-- Every city constant scanned by the headline fallback is a nonempty
string. -/
theorem cities_truthy :
    ∀ c ∈ TARGET_LOCATION :: NEARBY_LOCATIONS, truthy (.str c) = true := by decide

/-- Claim C8 (amended): the location scorer never raises when its
string-expected fields hold strings (a truthy non-string location is the
counterexample's failure mode), and the tenure scorer never raises on any
list-shaped experience field at all — every per-entry parse failure (bad
date string, missing field, wrong entry type) is swallowed and the entry
merely excluded from the average. -/
theorem claim_C8_typed_fields_never_raise :
    (∀ cand : List (String × JVal), locWF cand = true →
      ∃ n, score_location_match cand = .ok n) ∧
    (∀ (today : Int) (entries : List JVal),
      ∃ n, score_tenure today [("experience", .arr entries)] = .ok n) := by
  constructor
  · intro cand hwf
    unfold locWF at hwf
    simp only [score_location_match]
    by_cases ht : truthy (resolveField cand "location" (.str "")) = true
    · simp only [ht, if_true] at hwf
      obtain ⟨s, hs⟩ : ∃ s, resolveField cand "location" (.str "") = .str s := by
        cases h : resolveField cand "location" (.str "") <;> rw [h] at hwf <;>
          first
            | exact ⟨_, rfl⟩
            | exact absurd hwf (by simp [isStrV])
      rw [hs] at ht
      simp only [hs, ht, if_true, pyLowerV]
      exact ⟨_, rfl⟩
    · have ht2 : truthy (resolveField cand "location" (.str "")) = false := by
        cases h : truthy (resolveField cand "location" (.str ""))
        · rfl
        · exact absurd h ht
      simp only [ht2, Bool.false_eq_true, if_false] at hwf ⊢
      obtain ⟨s, hs⟩ : ∃ s, getJ cand "headline" (.str "") = .str s := by
        cases h : getJ cand "headline" (.str "") <;> rw [h] at hwf <;>
          first
            | exact ⟨_, rfl⟩
            | exact absurd hwf (by simp [isStrV])
      simp only [hs, pyLowerV]
      by_cases hr : pySub "remote" (lowS s) = true
      · simp only [hr, if_true]
        exact ⟨6, rfl⟩
      · have hr2 : pySub "remote" (lowS s) = false := by
          cases h : pySub "remote" (lowS s)
          · rfl
          · exact absurd h hr
        simp only [hr2, Bool.false_eq_true, if_false]
        cases hf : (TARGET_LOCATION :: NEARBY_LOCATIONS).find? (fun c => pySub (lowS c) (lowS s)) with
        | some city =>
          have hmem : city ∈ TARGET_LOCATION :: NEARBY_LOCATIONS := List.mem_of_find?_eq_some hf
          have hcity : truthy (.str city) = true := cities_truthy city hmem
          simp only [hcity, if_true, pyLowerV]
          exact ⟨_, rfl⟩
        | none =>
          simp only [ht2, Bool.false_eq_true, if_false]
          exact ⟨5, rfl⟩
  · intro today entries
    cases entries with
    | nil => exact ⟨5, rfl⟩
    | cons a t =>
      simp only [score_tenure]
      have hres : resolveField [("experience", .arr (a :: t))] "experience" (.arr []) =
          .arr (a :: t) := by
        unfold resolveField getJ lookupJ
        simp [truthy]
      rw [hres]
      simp only [truthy, List.isEmpty_cons, Bool.not_false, if_true, pyIter]
      by_cases hc : (tenureLoop today (a :: t) 0 0).2 > 0
      · simp only [hc, if_true]
        exact ⟨_, rfl⟩
      · simp only [hc, if_false]
        exact ⟨_, rfl⟩

/-- A candidate whose location field holds the number 123: the first
`location.lower()` call raises `AttributeError`. -/
def numericLocationCandidate : List (String × JVal) := [("location", .num 123)]

/-- Claim C8 (counterexample): `_score_location_match` raises on a
JSON-compatible candidate whose location is a number, refuting "no
category scorer raises an exception" as universally stated. -/
theorem claim_C8_counterexample :
    score_location_match numericLocationCandidate = .error "AttributeError: lower" := rfl

/-- Witness for C8: both parts applied at concrete inputs — a plain string
location, and an experience list whose only entry has an unparseable date
string. -/
theorem claim_C8_typed_fields_never_raise_witness :
    (∃ n, score_location_match [("location", .str "Mountain View")] = .ok n) ∧
    (∃ n, score_tenure 0 [("experience", .arr [.obj [("dates", .str "garbage")]])] = .ok n) :=
  ⟨claim_C8_typed_fields_never_raise.1 [("location", .str "Mountain View")] (by decide),
   claim_C8_typed_fields_never_raise.2 0 [.obj [("dates", .str "garbage")]]⟩

/-- An experience entry carrying a truthy `duration` value. -/
def hasDuration (e : JVal) : Bool :=
  match e with
  | .obj o => truthy (getJ o "duration" (.str ""))
  | _ => false

/-- An entry with a truthy duration contributes nothing to the tenure
average: the `if not duration` guard at line 417 skips all date parsing. -/
theorem entryDays_none_of_hasDuration (today : Int) (e : JVal) (h : hasDuration e = true) :
    entryDays today e = none := by
  unfold hasDuration at h
  unfold entryDays
  cases e <;> simp_all

/-- The tenure loop leaves its accumulators untouched when every entry
carries a truthy duration. -/
theorem tenureLoop_skip (today : Int) :
    ∀ (l : List JVal) (tot : Int) (cnt : Nat),
    (∀ e ∈ l, hasDuration e = true) → tenureLoop today l tot cnt = (tot, cnt) := by
  intro l
  induction l with
  | nil => intro tot cnt _; rfl
  | cons e t ih =>
    intro tot cnt h
    rw [tenureLoop]
    rw [entryDays_none_of_hasDuration today e (h e (List.mem_cons_self e t))]
    exact ih tot cnt (fun x hx => h x (List.mem_cons_of_mem _ hx))

/-- Claim C10: the tenure scorer ignores every experience entry whose
`duration` field is present and truthy — the duration value is never
parsed and the entry is excluded from the average — so a candidate all of
whose entries carry a truthy duration receives the tenure default of 5. -/
theorem claim_C10_duration_entries_ignored (today : Int) (entries : List JVal)
    (h : ∀ e ∈ entries, hasDuration e = true) :
    score_tenure today [("experience", .arr entries)] = .ok 5 := by
  cases entries with
  | nil => rfl
  | cons a t =>
    simp only [score_tenure]
    have hres : resolveField [("experience", .arr (a :: t))] "experience" (.arr []) =
        .arr (a :: t) := by
      unfold resolveField getJ lookupJ
      simp [truthy]
    rw [hres]
    simp only [truthy, List.isEmpty_cons, Bool.not_false, if_true, pyIter]
    rw [tenureLoop_skip today (a :: t) 0 0 h]
    rfl

/-- Witness for C10: an entry carrying both a duration and a
ten-year-long dates range still scores the default 5 — the dates are
never consulted once a duration is present. -/
theorem claim_C10_duration_entries_ignored_witness :
    score_tenure 0 [("experience",
      .arr [.obj [("duration", .str "6 months"), ("dates", .str "Jan 2010 - Jan 2020")]])] =
      .ok 5 :=
  claim_C10_duration_entries_ignored 0
    [.obj [("duration", .str "6 months"), ("dates", .str "Jan 2010 - Jan 2020")]] (by decide)

/-! ### Claim C9: keyword extraction -/

/-- The stopword list of `extract_keywords_from_job`
(src/utils.py lines 40-49; the source wraps it in `set(...)`, which only
matters for membership). -/
def stopwords : List String :=
  ["the", "and", "to", "of", "a", "in", "for", "with", "on", "at", "from",
   "by", "about", "as", "into", "like", "through", "after", "over", "between",
   "out", "is", "am", "are", "was", "were", "be", "been", "being", "have", "has",
   "had", "do", "does", "did", "but", "if", "or", "because", "as", "until", "while",
   "that", "this", "these", "those", "then", "than", "when", "where", "why", "how",
   "all", "any", "both", "each", "few", "more", "most", "other", "some", "such",
   "no", "nor", "not", "only", "own", "same", "so", "too", "very", "can", "will",
   "just", "should", "now", "role", "we", "our", "you", "your"]

/-- The technical-term vocabulary of `extract_keywords_from_job`
(src/utils.py lines 57-71). -/
def technical_terms : List String :=
  ["python", "javascript", "java", "c++", "typescript", "ruby", "go", "rust", "php",
   "scala", "kotlin",
   "react", "angular", "vue", "django", "flask", "spring", "node", "express", "laravel",
   "rails",
   "machine learning", "deep learning", "tensorflow", "pytorch", "keras", "sklearn",
   "pandas", "numpy",
   "neural networks", "nlp", "computer vision", "reinforcement learning", "data mining",
   "statistics",
   "aws", "azure", "gcp", "docker", "kubernetes", "terraform", "cloud",
   "sql", "nosql", "mongodb", "postgresql", "mysql", "oracle", "cassandra", "redis",
   "elasticsearch",
   "rest", "api", "microservices", "ci/cd", "git", "agile", "scrum", "devops", "testing"]

/-- ASCII fragment of the regex class `\w`. -/
def isWordChar (c : Char) : Bool := c.isAlphanum || c == '_'

/-- The text cleaning of `extract_keywords_from_job` (lines 33-34):
lowercase, then replace every character that is neither a word character
nor whitespace with a space. -/
def cleanJobText (jd : String) : String :=
  ⟨(jd.data.map lowChar).map (fun c => if isWordChar c || c.isWhitespace then c else ' ')⟩

/-- First-seen deduplication (the insertion order of a Python dict or
Counter over the token stream). -/
def dedupFS : List String → List String → List String
  | [], _ => []
  | x :: t, seen => if seen.contains x then dedupFS t seen else x :: dedupFS t (x :: seen)

/-- Occurrence count of a token. -/
def countOcc (w : String) (l : List String) : Nat := (l.filter (fun x => x == w)).length

/-- Stable descending insertion by count, modelling the stable
`sorted(..., reverse=True)` underlying `Counter.most_common`. -/
def insDescBy (x : String × Nat) : List (String × Nat) → List (String × Nat)
  | [] => [x]
  | y :: t => if !Nat.blt x.2 y.2 then x :: y :: t else y :: insDescBy x t

/-- Stable sort, descending by count (ties keep first-seen order). -/
def sortDescBy : List (String × Nat) → List (String × Nat)
  | [] => []
  | x :: t => insDescBy x (sortDescBy t)

/-- `Counter(filtered_words).most_common(20)` (line 80): tokens in
first-seen order with their counts, stably sorted by descending count,
truncated to 20. -/
def mostCommon20 (filtered : List String) : List (String × Nat) :=
  (sortDescBy ((dedupFS filtered []).map (fun w => (w, countOcc w filtered)))).take 20

/-- `extract_keywords_from_job` (src/utils.py lines 30-85), parameterized
by `setOrder`: the enumeration order of the Python set in
`list(set(found_terms + top_words))` at line 83.  CPython enumerates a set
of strings in an order that depends on the per-process hash seed, so any
permutation of the deduplicated elements is a possible run; everything
else in the function is deterministic. -/
def extract_keywords_from_job (setOrder : List String → List String) (jd : String) :
    List String :=
  let text := cleanJobText jd
  let words := pySplitWS text
  let filtered := words.filter (fun w => !stopwords.contains w && w.data.length > 2)
  let found_terms := technical_terms.filter (fun term => pySub term text)
  let top_words := ((mostCommon20 filtered).filter (fun p => p.2 > 1)).map Prod.fst
  (setOrder (dedupFS (found_terms ++ top_words) [])).take 15

/-- Claim C9: the returned keyword list never exceeds 15 entries for any
input and any set order, but its order is NOT determined by the input:
the deduplicated keyword set is enumerated in Python set order, so two
interpreter runs with different hash seeds can return the same keywords
in different orders — exhibited here on the input "python pytorch" with
two enumeration orders of the same two-element set. -/
theorem claim_C9_keyword_order_hash_dependent :
    (∀ (setOrder : List String → List String) (jd : String),
      (extract_keywords_from_job setOrder jd).length ≤ 15) ∧
    extract_keywords_from_job (fun l => l) "python pytorch" ≠
      extract_keywords_from_job List.reverse "python pytorch" := by
  constructor
  · intro so jd
    unfold extract_keywords_from_job
    exact List.length_take_le 15 _
  · decide

end LinkedinAutomate
